import Mathlib

/-!
Shallow embedding of the InnoCrew truck-selection and trip-lifecycle engine
(`agent/agent_loop.py`, `database/models.py`, `world/route_eval.py`,
`agent/confidence.py`), with theorems checking the specification's claims.

Modelling conventions:
* Python dicts for trucks / trips / loads become structures; fields that the
  code reads through `dict.get(key, default)` are `Option` fields, and the
  default is applied at each use site, mirroring the source.
* Python floats are modelled as rationals (`ℚ`); `round` is modelled as
  round-half-to-even, Python's semantics on exact values. Number formatting
  in human-readable message strings is modelled without thousands separators.
* The module-level mutable `_last_assigned_driver` and the JSON stores become
  one explicit `AgentState` record threaded through the operations.
* External collaborators (geocoder, route service, wall clock) are injected as
  parameters; a raising route call is an `Except` value.
* Python's stable `list.sort(key=...)` is modelled by a stable insertion sort.
-/

unseal Rat.mul Rat.add Rat.inv Rat.sub Rat.ofScientific

namespace InnoCrew

/-- Python's truthiness for an optional string: `None` and `""` are falsy. -/
def truthyStr : Option String → Bool
  | none => false
  | some s => !(s == "")

/-- Does `big` start with the characters `small`? (helper for the `in` check) -/
def leadMatch : List Char → List Char → Bool
  | [], _ => true
  | _ :: _, [] => false
  | a :: as, b :: bs => a == b && leadMatch as bs

/-- Does `hay` contain `needle` as a contiguous run? -/
def hasSub (needle : List Char) : List Char → Bool
  | [] => leadMatch needle []
  | b :: bs => leadMatch needle (b :: bs) || hasSub needle bs

/-- Python's `needle in hay` on strings. -/
def strContains (hay needle : String) : Bool :=
  hasSub needle.data hay.data

/-- ASCII lower-casing of one character, as Python's `str.lower` does on the
city names appearing in this code base. -/
def charLower (c : Char) : Char :=
  if 65 ≤ c.toNat ∧ c.toNat ≤ 90 then Char.ofNat (c.toNat + 32) else c

/-- Python's `str.lower()` (ASCII). -/
def strLower (s : String) : String := ⟨s.data.map charLower⟩

/-- Stable insertion of `x` into a sorted list: `x` goes before the first
element `y` with `le x y`, so an earlier element precedes later equal ones. -/
def insertSorted (le : α → α → Bool) (x : α) : List α → List α
  | [] => [x]
  | y :: ys => if le x y then x :: y :: ys else y :: insertSorted le x ys

/-- Stable insertion sort, modelling Python's stable `list.sort`. -/
def sortStable (le : α → α → Bool) : List α → List α
  | [] => []
  | x :: xs => insertSorted le x (sortStable le xs)

theorem length_insertSorted (le : α → α → Bool) (x : α) (l : List α) :
    (insertSorted le x l).length = l.length + 1 := by
  induction l with
  | nil => rfl
  | cons y ys ih =>
    simp only [insertSorted]
    split <;> simp [ih]

theorem length_sortStable (le : α → α → Bool) (l : List α) :
    (sortStable le l).length = l.length := by
  induction l with
  | nil => rfl
  | cons x xs ih => simp [sortStable, length_insertSorted, ih]

theorem sortStable_ne_nil {le : α → α → Bool} {l : List α} (h : l ≠ []) :
    sortStable le l ≠ [] := by
  intro hc
  apply h
  have hl := length_sortStable le l
  rw [hc] at hl
  exact List.length_eq_zero.mp hl.symm

/-- Update the first list element satisfying `p` (a Python
`for ...: if ...: mutate; break` loop over a loaded collection). -/
def updateFirst (p : α → Bool) (f : α → α) : List α → List α
  | [] => []
  | x :: xs => if p x then f x :: xs else x :: updateFirst p f xs

/-- Python `int()` on a rational: truncation toward zero. -/
def pyInt (q : ℚ) : ℤ :=
  if 0 ≤ q then ((q.num.toNat / q.den : ℕ) : ℤ) else -(((-q).num.toNat / (-q).den : ℕ) : ℤ)

/-- Floor of a rational (used by round-half-to-even). -/
def floorQ (q : ℚ) : ℤ := q.num.ediv (q.den : ℤ)

/-- Python `round(x)` on an exact value: round-half-to-even. -/
def pyRound0 (q : ℚ) : ℤ :=
  let f := floorQ q
  let r := q - (f : ℚ)
  if r < 1/2 then f
  else if 1/2 < r then f + 1
  else if f % 2 = 0 then f else f + 1

/-- Python `round(x, 1)`. -/
def pyRound1 (q : ℚ) : ℚ := (pyRound0 (q * 10) : ℚ) / 10

/-- Python `round(x, 2)`. -/
def pyRound2 (q : ℚ) : ℚ := (pyRound0 (q * 100) : ℚ) / 100

/-- Zero-padded ordinal, Python's `f"{n:03d}"` for the ids this code generates. -/
def pad3 (n : ℕ) : String :=
  if n < 10 then "00" ++ toString n
  else if n < 100 then "0" ++ toString n
  else toString n

/-- One vehicle record (`database/models.py` truck dict). -/
structure Truck where
  id : String
  number : Option String := none
  driver_phone : Option String := none
  driver_name : Option String := none
  location : Option String := none
  status : Option String := none
  condition : Option String := none
  fuel_percent : Option ℚ := none
  mileage_kmpl : Option ℚ := none
  capacity_kg : Option ℚ := none
  current_load_kg : Option ℚ := none
  last_trip_time : Option ℚ := none
  current_trip_id : Option String := none
  last_location_update : Option String := none
deriving DecidableEq

/-- One fuel stop produced by `plan_fuel_stops`. -/
structure FuelStop where
  city : String
  estimated_fuel : String
  reason : String
deriving DecidableEq

/-- One trip record (`database/models.py` trip dict, fields written by
`plan_trip_with_truck` and the lifecycle operations). -/
structure Trip where
  id : String
  origin : String := ""
  destination : String := ""
  waypoints : List String := []
  truck_id : Option String := none
  truck_number : Option String := none
  driver_phone : Option String := none
  driver_name : Option String := none
  distance_km : Option ℚ := none
  eta_hours : Option ℚ := none
  fuel_cost : Option ℚ := none
  toll_cost : Option ℚ := none
  total_cost : Option ℚ := none
  expected_revenue : Option ℚ := none
  expected_profit : Option ℚ := none
  confidence : Option ℚ := none
  fuel_stops : List FuelStop := []
  load_percent : Option ℚ := none
  mileage : Option ℚ := none
  condition : Option String := none
  truck_fuel_percent : Option ℚ := none
  truck_capacity_kg : Option ℚ := none
  truck_current_load_kg : Option ℚ := none
  available_capacity_kg : Option ℚ := none
  status : Option String := none
  created_at : Option String := none
  current_location : Option String := none
  last_updated : Option String := none
  progress_percent : Option ℕ := none
  actual_profit : Option ℚ := none
  end_time : Option String := none
deriving DecidableEq

/-- One load-request record. -/
structure Load where
  id : Option String := none
  weight_kg : Option ℚ := none
  pickup : Option String := none
  dropoff : Option String := none
  status : Option String := none
  trip_id : Option String := none
deriving DecidableEq

/-- One en-route opportunity descriptor built by `find_enroute_opportunities`. -/
structure Opportunity where
  load_id : Option String
  weight_kg : ℚ
  pickup : Option String
  dropoff : Option String
  additional_revenue : ℚ
  detour_estimated : String
  profit_impact : String
deriving DecidableEq

/-- The three JSON stores plus the module-level `_last_assigned_driver`. -/
structure AgentState where
  trucks : List Truck
  trips : List Trip
  loads : List Load
  last_assigned_driver : Option String
deriving DecidableEq

/-- `Database.get_trip_by_id`. -/
def get_trip_by_id (s : AgentState) (trip_id : String) : Option Trip :=
  s.trips.find? (fun t => t.id == trip_id)

/-- `Database.get_truck_by_id`. -/
def get_truck_by_id (s : AgentState) (truck_id : String) : Option Truck :=
  s.trucks.find? (fun t => t.id == truck_id)

/-- `Database.get_available_trucks`: status filter, then (for a truthy origin)
a stable sort putting trucks whose location equals the origin first. -/
def get_available_trucks (s : AgentState) (origin : String) : List Truck :=
  let available := s.trucks.filter (fun t => t.status == some "available")
  if origin == "" then available
  else
    sortStable
      (fun a b =>
        (fun t : Truck => if strLower (t.location.getD "") == strLower origin then (0 : ℕ) else 1) a ≤
          (fun t : Truck => if strLower (t.location.getD "") == strLower origin then (0 : ℕ) else 1) b)
      available

/-- The per-record mutation of `Database.update_truck_status`: set the status
and, only when the passed location is truthy, the location and its timestamp. -/
def apply_truck_status (status : String) (location : Option String) (nowIso : String)
    (t : Truck) : Truck :=
  let t1 := { t with status := some status }
  if truthyStr location then
    { t1 with location := location, last_location_update := some nowIso }
  else t1

/-- `Database.update_truck_status` on a loaded truck list. -/
def update_truck_status (trucks : List Truck) (truck_id status : String)
    (location : Option String) (nowIso : String) : List Truck :=
  updateFirst (fun t => t.id == truck_id) (apply_truck_status status location nowIso) trucks

/-- The per-record mutation of `Database.update_trip_status`. -/
def apply_trip_status (status : String) (location : Option String) (nowIso : String)
    (t : Trip) : Trip :=
  let t1 := { t with status := some status }
  if truthyStr location then
    { t1 with current_location := location, last_updated := some nowIso }
  else t1

/-- `Database.update_trip_status` on a loaded trip list. -/
def update_trip_status (trips : List Trip) (trip_id status : String)
    (location : Option String) (nowIso : String) : List Trip :=
  updateFirst (fun t => t.id == trip_id) (apply_trip_status status location nowIso) trips

/-- Loop body of `start_trip`'s truck-location update. -/
def apply_truck_position (location nowIso : String) (t : Truck) : Truck :=
  { t with location := some location, last_location_update := some nowIso }

/-- Loop body of `complete_trip`'s truck reset: zero the load, clear the trip
reference, move the truck, and deduct the estimated fuel burn (400 L tank),
floored at 0. -/
def apply_truck_completion (location : String) (distance : ℚ) (t : Truck) : Truck :=
  let current_fuel := t.fuel_percent.getD 80
  let mileage := t.mileage_kmpl.getD 5
  let fuel_used := distance / mileage * 100 / 400
  { t with current_load_kg := some 0, current_trip_id := none,
           location := some location,
           fuel_percent := some (max 0 (current_fuel - fuel_used)) }

/-- Loop body of `plan_trip_with_truck`'s truck bookkeeping after assignment. -/
def apply_truck_assignment (trip_id : String) (now : ℚ) (t : Truck) : Truck :=
  { t with current_trip_id := some trip_id, last_trip_time := some now }

/-- Loop body of `update_trip_location`'s progress write. -/
def apply_trip_tracking (location nowIso : String) (progress : ℕ) (t : Trip) : Trip :=
  { t with current_location := some location, progress_percent := some progress,
           last_updated := some nowIso }

/-- Loop body of `complete_trip`'s completion-data write. -/
def apply_trip_completion (actual_profit : ℚ) (nowIso : String) (t : Trip) : Trip :=
  { t with actual_profit := some actual_profit, end_time := some nowIso,
           progress_percent := some 100 }

/-- `Database.get_active_trips`. -/
def get_active_trips (s : AgentState) : List Trip :=
  s.trips.filter (fun t =>
    t.status == some "pending" || t.status == some "accepted" || t.status == some "in_progress")

/-- `Database.get_pending_loads`. -/
def get_pending_loads (s : AgentState) : List Load :=
  s.loads.filter (fun l => l.status == some "pending")

/-- `Database.create_trip`: assign the sequential id, stamp creation time and
the `pending` status, append. Returns the stored record and the new list. -/
def create_trip (trips : List Trip) (trip_data : Trip) (nowIso : String) : Trip × List Trip :=
  let trip_id := "TRIP" ++ pad3 (trips.length + 1)
  let t := { trip_data with id := trip_id, created_at := some nowIso, status := some "pending" }
  (t, trips ++ [t])

/-- `get_driver_workload`, as a lookup function: the Python dict maps each
truthy driver phone of an active trip to its count of active trips, and every
lookup uses default `0`; `""` is never a key because `if driver_phone:` skips
falsy phones. -/
def get_driver_workload (s : AgentState) (phone : String) : ℕ :=
  if phone == "" then 0
  else ((get_active_trips s).filter (fun t => t.driver_phone == some phone)).length

/-- `rotate_driver_selection`. Returns the selected truck, the available list
as the caller sees it afterwards (Python sorts it in place in the all-from-last
branch), and the new `_last_assigned_driver` token. -/
def rotate_driver_selection (s : AgentState) (available : List Truck) :
    Option Truck × List Truck × Option String :=
  match available with
  | [] => (none, [], s.last_assigned_driver)
  | a :: as =>
    let workloadKey : Truck → ℕ := fun t => get_driver_workload s ((t.driver_phone).getD "")
    let trucks_not_last := (a :: as).filter (fun t => !(t.driver_phone == s.last_assigned_driver))
    match trucks_not_last with
    | n0 :: ns =>
      let sel := (sortStable (fun x y => workloadKey x ≤ workloadKey y) (n0 :: ns)).head
        (sortStable_ne_nil (List.cons_ne_nil n0 ns))
      (some sel, a :: as, sel.driver_phone)
    | [] =>
      let sorted := sortStable (fun x y => workloadKey x ≤ workloadKey y) (a :: as)
      let sel := sorted.head (sortStable_ne_nil (List.cons_ne_nil a as))
      (some sel, sorted, sel.driver_phone)

/-- `calculate_truck_score`. -/
def calculate_truck_score (truck : Truck) (origin destination : String)
    (distance_km : ℚ) : ℚ :=
  let score : ℚ := 0
  let truck_loc := strLower (truck.location.getD "")
  let origin_low := strLower origin
  let score :=
    if truck_loc == origin_low then score + 0.4
    else if strContains origin_low "mumbai" && strContains truck_loc "mumbai" then score + 0.3
    else if strContains origin_low "pune" && strContains truck_loc "pune" then score + 0.3
    else score
  let condition := truck.condition.getD "Good"
  let score :=
    if condition == "Excellent" then score + 0.2
    else if condition == "Good" then score + 0.15
    else score + 0.1
  let fuel_percent := truck.fuel_percent.getD 50
  let score := score + fuel_percent / 100 * 0.1
  let mileage := truck.mileage_kmpl.getD 5
  let score :=
    if 500 < distance_km then score + mileage / 10 * 0.2
    else score + mileage / 10 * 0.1
  let score :=
    if 800 < distance_km then score + min 0.1 (truck.capacity_kg.getD 10000 / 200000)
    else score
  min 1 score

/-- `select_best_truck_by_scoring`: quality score minus the workload penalty
(only for drivers present in the workload dict) plus the 24-hour recency
bonus; stable descending sort; first element wins. Reads no mutable state. -/
def select_best_truck_by_scoring (s : AgentState) (available : List Truck)
    (origin destination : String) (distance_km now : ℚ) : Option Truck :=
  let scored := available.map (fun truck =>
    let score := calculate_truck_score truck origin destination distance_km
    let score :=
      match truck.driver_phone with
      | some phone =>
        if 0 < get_driver_workload s phone then
          score - min 0.3 ((get_driver_workload s phone : ℚ) * 0.1)
        else score
      | none => score
    let last_trip := truck.last_trip_time.getD 0
    let score := if last_trip ≠ 0 ∧ 86400 < now - last_trip then score + 0.15 else score
    (truck, score))
  let sorted := sortStable (fun x y => y.2 ≤ x.2) scored
  sorted.head?.map Prod.fst

/-- `select_best_truck`: rotation phase, 0.5 quality gate on the rotation
candidate, fallback to the scoring phase. The fairness token update happens
inside the rotation phase only. -/
def select_best_truck (s : AgentState) (origin destination : String)
    (distance_km now : ℚ) : Option Truck × AgentState :=
  let available := get_available_trucks s origin
  match available with
  | [] => (none, s)
  | a :: as =>
    let r := rotate_driver_selection s (a :: as)
    let s1 := { s with last_assigned_driver := r.2.2 }
    match r.1 with
    | some rotated_truck =>
      if (0.5 : ℚ) ≤ calculate_truck_score rotated_truck origin destination distance_km then
        (some rotated_truck, s1)
      else
        (select_best_truck_by_scoring s1 r.2.1 origin destination distance_km now, s1)
    | none =>
      (select_best_truck_by_scoring s1 r.2.1 origin destination distance_km now, s1)

/-- `world/route_eval.py` `estimate_eta` (AVG_SPEED_KMPH = 55). -/
def estimate_eta (distance_km : ℚ) : ℚ := distance_km / 55

/-- `world/route_eval.py` `estimate_fuel`. -/
def estimate_fuel (distance_km mileage : ℚ) : ℚ := distance_km / mileage

/-- `world/route_eval.py` `estimate_fuel_cost` (FUEL_PRICE_PER_LITER = 95). -/
def estimate_fuel_cost (distance_km mileage : ℚ) : ℚ :=
  estimate_fuel distance_km mileage * 95

/-- `world/route_eval.py` `calculate_toll_cost`. -/
def calculate_toll_cost (distance_km : ℚ) : ℚ := distance_km * 1.5

/-- `agent/confidence.py` `compute_confidence` (the later definition in the
file, which Python keeps). -/
def compute_confidence (load_percent : ℚ) (fuel_ok : Bool) (traffic_score : ℚ) : ℚ :=
  let score : ℚ := 1
  let score := if 85 < load_percent then score * 0.8 else score
  let score := if !fuel_ok then score * 0.6 else score
  let score := score * traffic_score
  pyRound2 score

/-- The static waypoint-city table of `plan_fuel_stops`. -/
def route_cities : List ((String × String) × List String) :=
  [(("mumbai", "delhi"), ["Surat", "Vadodara", "Udaipur", "Jaipur"]),
   (("mumbai", "bangalore"), ["Pune", "Kolhapur", "Belgaum"]),
   (("delhi", "mumbai"), ["Jaipur", "Udaipur", "Vadodara", "Surat"]),
   (("bangalore", "chennai"), ["Vellore"]),
   (("pune", "nagpur"), ["Aurangabad", "Jalna"]),
   (("delhi", "chandigarh"), ["Panipat", "Ambala"]),
   (("chennai", "bangalore"), ["Vellore"]),
   (("kolkata", "delhi"), ["Varanasi", "Allahabad", "Kanpur"]),
   (("hyderabad", "bangalore"), ["Kurnool", "Anantapur"]),
   (("ahmedabad", "mumbai"), ["Vapi", "Valsad", "Surat"])]

/-- Dict lookup in the waypoint-city table. -/
def lookupRoute (key : String × String) : Option (List String) :=
  (route_cities.find? (fun e => e.1 == key)).map (fun e => e.2)

/-- `plan_fuel_stops`. Integer arithmetic (`//`) is modelled on `ℤ`; the
`:.0f` float format in the generic-stop reason is round-half-to-even. -/
def plan_fuel_stops (origin destination : String) (distance_km mileage_kmpl : ℚ) :
    List FuelStop :=
  let tank_capacity : ℚ := 400
  let range_km := tank_capacity * mileage_kmpl
  let route_key := (strLower origin, strLower destination)
  let reverse_key := (strLower destination, strLower origin)
  let cities := ((lookupRoute route_key).orElse (fun _ => lookupRoute reverse_key)).getD []
  let stops : List FuelStop :=
    if cities ≠ [] ∧ 300 < distance_km then
      let optimal_stop_distance := range_km * 0.6
      let num_stops : ℤ := max 1 (pyInt (distance_km / optimal_stop_distance))
      let ns := num_stops.toNat
      if num_stops ≤ (cities.length : ℤ) then
        let step := cities.length / (ns + 1)
        (List.range ns).map (fun j =>
          let i := j + 1
          let idx := min (i * step) (cities.length - 1)
          let estimated_fuel : ℤ := max 20 (100 - (i : ℤ) * ((80 : ℤ) / ((ns : ℤ) + 1)))
          { city := cities.getD idx "",
            estimated_fuel := toString estimated_fuel ++ "%",
            reason := "Refuel before reaching " ++ destination })
      else
        (List.range ns).map (fun j =>
          let i : ℕ := j + 1
          let estimated_fuel : ℤ := max 25 (100 - (i : ℤ) * ((70 : ℤ) / ((ns : ℤ) + 1)))
          { city := "Stop " ++ toString i,
            estimated_fuel := toString estimated_fuel ++ "%",
            reason := "Approximately " ++ toString (pyRound0 ((i : ℚ) * optimal_stop_distance))
              ++ "km from start" })
    else []
  if stops ≠ [] then stops
  else [{ city := "Mid-route", estimated_fuel := "45%", reason := "Regular refueling stop" }]

/-- `plan_trip_with_truck`. The geocoder and the route service are injected:
`geocode` returns coordinates or `none`, and `route` returns the
`(distance_km, duration_hr)` pair or, when the Python call raises, an
`Except.error` carrying the exception text. `now` is `time.time()` and
`nowIso` the formatted wall-clock timestamps. -/
def plan_trip_with_truck
    (geocode : String → Option (ℚ × ℚ))
    (route : (ℚ × ℚ) → (ℚ × ℚ) → Except String (ℚ × ℚ))
    (now : ℚ) (nowIso : String)
    (s : AgentState) (origin destination : String) (waypoints : List String) :
    (Option Trip × Option String) × AgentState :=
  match geocode origin, geocode destination with
  | some start_coords, some end_coords =>
    (match route start_coords end_coords with
     | .error e => ((none, some ("Route calculation failed: " ++ e)), s)
     | .ok (distance_km, _duration_hr) =>
       match select_best_truck s origin destination distance_km now with
       | (none, s1) => ((none, some "No trucks available"), s1)
       | (some truck, s1) =>
         let eta_hours := estimate_eta distance_km
         let fuel_cost := estimate_fuel_cost distance_km (truck.mileage_kmpl.getD 5)
         let toll_cost := calculate_toll_cost distance_km
         let current_load := truck.current_load_kg.getD 0
         let capacity := truck.capacity_kg.getD 10000
         let load_percent := if 0 < capacity then current_load / capacity * 100 else 0
         let fuel_ok := decide (20 < truck.fuel_percent.getD 0)
         let traffic_score : ℚ := 0.9
         let confidence := compute_confidence load_percent fuel_ok traffic_score
         let revenue := distance_km * 30
         let total_cost := fuel_cost + toll_cost
         let profit := revenue - total_cost
         let fuel_stops := plan_fuel_stops origin destination distance_km
           (truck.mileage_kmpl.getD 5)
         let trip_data : Trip := {
           id := "",
           origin := origin, destination := destination, waypoints := waypoints,
           truck_id := some truck.id,
           truck_number := some (truck.number.getD "UNKNOWN"),
           driver_phone := some (truck.driver_phone.getD ""),
           driver_name := some (truck.driver_name.getD "Unknown Driver"),
           distance_km := some (pyRound1 distance_km),
           eta_hours := some (pyRound1 eta_hours),
           fuel_cost := some ((pyRound0 fuel_cost : ℚ)),
           toll_cost := some ((pyRound0 toll_cost : ℚ)),
           total_cost := some ((pyRound0 total_cost : ℚ)),
           expected_revenue := some ((pyRound0 revenue : ℚ)),
           expected_profit := some ((pyRound0 profit : ℚ)),
           confidence := some confidence,
           fuel_stops := fuel_stops,
           load_percent := some ((pyRound0 load_percent : ℚ)),
           mileage := some (truck.mileage_kmpl.getD 5),
           condition := some (truck.condition.getD "Good"),
           truck_fuel_percent := some (truck.fuel_percent.getD 80),
           truck_capacity_kg := some capacity,
           truck_current_load_kg := some current_load,
           available_capacity_kg := some (capacity - current_load) }
         let created := create_trip s1.trips trip_data nowIso
         let s2 := { s1 with trips := created.2 }
         let trucks3 := update_truck_status s2.trucks truck.id "assigned" none nowIso
         let s3 := { s2 with trucks := trucks3 }
         let trucks4 := updateFirst (fun t => t.id == truck.id)
           (apply_truck_assignment created.1.id now) s3.trucks
         let s4 := { s3 with trucks := trucks4 }
         ((some created.1, none), s4))
  | _, _ => ((none, some "Could not geocode cities"), s)

/-- `accept_trip`. -/
def accept_trip (s : AgentState) (trip_id driver_phone : String) (nowIso : String) :
    (Bool × String) × AgentState :=
  match get_trip_by_id s trip_id with
  | none => ((false, "Trip not found"), s)
  | some trip =>
    if !(trip.driver_phone == some driver_phone) then ((false, "Not authorized"), s)
    else
      let s1 := { s with trips := update_trip_status s.trips trip_id "accepted" none nowIso }
      let s2 :=
        if truthyStr trip.truck_id then
          let trucks2 := update_truck_status s1.trucks (trip.truck_id.getD "") "in_transit" none nowIso
          { s1 with trucks := trucks2 }
        else s1
      ((true, "Trip accepted"), s2)

/-- `start_trip`. -/
def start_trip (s : AgentState) (trip_id location nowIso : String) :
    (Bool × String) × AgentState :=
  match get_trip_by_id s trip_id with
  | none => ((false, "Trip not found"), s)
  | some trip =>
    let s1 := { s with trips := update_trip_status s.trips trip_id "in_progress" (some location) nowIso }
    let s2 :=
      if truthyStr trip.truck_id then
        let trucks2 := updateFirst (fun t => t.id == trip.truck_id.getD "")
          (apply_truck_position location nowIso) s1.trucks
        { s1 with trucks := trucks2 }
      else s1
    ((true, "Trip started from " ++ location), s2)

/-- `complete_trip`. -/
def complete_trip (s : AgentState) (trip_id location nowIso : String) :
    (Bool × String) × AgentState :=
  match get_trip_by_id s trip_id with
  | none => ((false, "Trip not found"), s)
  | some trip =>
    let actual_profit := trip.expected_profit.getD 0 * 0.95
    let s1 := { s with trips := update_trip_status s.trips trip_id "completed" (some location) nowIso }
    let s2 :=
      if truthyStr trip.truck_id then
        let tk := trip.truck_id.getD ""
        let trucks1 := update_truck_status s1.trucks tk "available" (some location) nowIso
        let s1a := { s1 with trucks := trucks1 }
        let trucks2 := updateFirst (fun t => t.id == tk)
          (apply_truck_completion location (trip.distance_km.getD 0)) s1a.trucks
        { s1a with trucks := trucks2 }
      else s1
    let trips3 := updateFirst (fun t => t.id == trip_id)
      (apply_trip_completion actual_profit nowIso) s2.trips
    let s3 := { s2 with trips := trips3 }
    ((true, "Trip completed at " ++ location ++ ". Profit: ₹" ++ toString (pyRound0 actual_profit)), s3)

/-- `update_trip_location`. -/
def update_trip_location (s : AgentState) (trip_id location nowIso : String) :
    (Bool × String) × AgentState :=
  match get_trip_by_id s trip_id with
  | none => ((false, "Trip not found"), s)
  | some trip =>
    let progress0 := trip.progress_percent.getD 0
    let progress := if progress0 < 100 then min (progress0 + 10) 95 else progress0
    let s1 := { s with trips := update_trip_status s.trips trip_id "in_progress" (some location) nowIso }
    let trips2 := updateFirst (fun t => t.id == trip_id)
      (apply_trip_tracking location nowIso progress) s1.trips
    let s2 := { s1 with trips := trips2 }
    ((true, "Location updated: " ++ location ++ " (Progress: " ++ toString progress ++ "%)"), s2)

/-- `find_enroute_opportunities`. The `for load in pending_loads:` loop that
conditionally appends is written as filter-then-map; `[:3]` is `take 3`. -/
def find_enroute_opportunities (s : AgentState) (truck_id : String) :
    List Opportunity × AgentState :=
  match get_truck_by_id s truck_id with
  | none => ([], s)
  | some truck =>
    if !(truck.status == some "in_transit") then ([], s)
    else if !(truthyStr truck.current_trip_id) then ([], s)
    else
      match get_trip_by_id s (truck.current_trip_id.getD "") with
      | none => ([], s)
      | some trip =>
        let available_capacity := trip.available_capacity_kg.getD 0
        if available_capacity ≤ 0 then ([], s)
        else
          let pending_loads := get_pending_loads s
          let opportunities :=
            (pending_loads.filter (fun load => load.weight_kg.getD 0 ≤ available_capacity)).map
              (fun load =>
                let load_weight := load.weight_kg.getD 0
                let additional_revenue := load_weight * 0.5
                { load_id := load.id, weight_kg := load_weight,
                  pickup := load.pickup, dropoff := load.dropoff,
                  additional_revenue := additional_revenue,
                  detour_estimated := "1-2 hours",
                  profit_impact := "+₹" ++ toString (pyRound0 additional_revenue) })
          (opportunities.take 3, s)

/-! ### Status ordering of the trip lifecycle (spec §4.3) -/

/-- The lifecycle chain `pending → accepted → in_progress → completed`. -/
def statusOrder : List String := ["pending", "accepted", "in_progress", "completed"]

/-- Position of a status in the lifecycle chain (`4` for anything else). -/
def statusIdx (st : String) : ℕ := statusOrder.indexOf st

/-- Position of an optional status; a missing status counts as off-chain. -/
def statusIdxO (st : Option String) : ℕ := statusIdx (st.getD "")

/-- The status of a stored trip, as an observer reads it back. -/
def trip_status_in (s : AgentState) (trip_id : String) : Option String :=
  (get_trip_by_id s trip_id).bind Trip.status

/-- The progress of a stored trip, as an observer reads it back. -/
def trip_progress_in (s : AgentState) (trip_id : String) : Option ℕ :=
  (get_trip_by_id s trip_id).bind Trip.progress_percent

/-! ### Concrete sample records used by the claims' scenarios -/

/-- Vehicle A of the spec's selection scenario (testable property 7). -/
def truckA : Truck :=
  { id := "TRKA", driver_phone := some "+919876543210", location := some "Mumbai",
    status := some "available", condition := some "Good", fuel_percent := some 85,
    mileage_kmpl := some (28/5) }

/-- Vehicle B of the spec's selection scenario (testable property 7). -/
def truckB : Truck :=
  { id := "TRKB", driver_phone := some "+919876543211", location := some "Pune",
    status := some "available", condition := some "Excellent", fuel_percent := some 90,
    mileage_kmpl := some (31/5) }

/-- The selection scenario's state: both vehicles available, no trips, no
prior fairness token. -/
def stateC3 : AgentState :=
  { trucks := [truckA, truckB], trips := [], loads := [], last_assigned_driver := none }

/-- A low-quality truck whose driver differs from the current fairness token. -/
def truckX : Truck :=
  { id := "TRKX", driver_phone := some "+911", location := some "Goa",
    status := some "available", condition := some "Poor", fuel_percent := some 0,
    mileage_kmpl := some 0 }

/-- A high-quality truck whose driver equals the current fairness token. -/
def truckY : Truck :=
  { id := "TRKY", driver_phone := some "+912", location := some "Delhi",
    status := some "available", condition := some "Excellent", fuel_percent := some 100,
    mileage_kmpl := some 10 }

/-- A state in which the rotation phase must pick `truckX` (its driver is not
the last assigned), the 0.5 gate rejects it, and the scoring fallback then
returns `truckY`. -/
def stateC2 : AgentState :=
  { trucks := [truckX, truckY], trips := [], loads := [],
    last_assigned_driver := some "+912" }

/-- A completed trip, for exercising the lifecycle operations after completion. -/
def tripDone : Trip :=
  { id := "TRIP001", driver_phone := some "+911", status := some "completed",
    progress_percent := some 100 }

/-- State holding only the completed trip. -/
def stateDone : AgentState :=
  { trucks := [], trips := [tripDone], loads := [], last_assigned_driver := none }

/-- A pending trip, the intended start of the lifecycle. -/
def tripPending : Trip :=
  { id := "TRIP001", driver_phone := some "+911", status := some "pending",
    progress_percent := none }

/-- State holding only the pending trip. -/
def statePending : AgentState :=
  { trucks := [], trips := [tripPending], loads := [], last_assigned_driver := none }

/-- An in-progress trip at 90 percent progress. -/
def tripRolling : Trip :=
  { id := "TRIP001", driver_phone := some "+911", status := some "in_progress",
    progress_percent := some 90 }

/-- State holding only the in-progress trip. -/
def stateRolling : AgentState :=
  { trucks := [], trips := [tripRolling], loads := [], last_assigned_driver := none }

/-- The in-transit truck of the opportunistic-matcher scenario. -/
def truckT : Truck :=
  { id := "TRK001", driver_phone := some "+911", status := some "in_transit",
    current_trip_id := some "TRIP001" }

/-- The matcher scenario's trip: 2000 kg of remaining capacity. -/
def tripT : Trip :=
  { id := "TRIP001", truck_id := some "TRK001", status := some "in_progress",
    available_capacity_kg := some 2000 }

/-- A pending load of the given id and weight. -/
def mkLoad (load_id : String) (w : ℚ) : Load :=
  { id := some load_id, weight_kg := some w, pickup := some "Mumbai",
    dropoff := some "Pune", status := some "pending" }

/-- The matcher scenario: pending loads of weight 500, 2500, 800, 1900. -/
def stateC7 : AgentState :=
  { trucks := [truckT], trips := [tripT],
    loads := [mkLoad "LOAD001" 500, mkLoad "LOAD002" 2500, mkLoad "LOAD003" 800,
              mkLoad "LOAD004" 1900],
    last_assigned_driver := none }

/-- Capacity-overshoot scenario: three pending loads of 1900 kg each against
2000 kg of remaining capacity. -/
def stateC10 : AgentState :=
  { trucks := [truckT], trips := [tripT],
    loads := [mkLoad "LOAD001" 1900, mkLoad "LOAD002" 1900, mkLoad "LOAD003" 1900],
    last_assigned_driver := none }

/-- A geocoder fixture resolving the two cities the failure scenario uses. -/
def geoFix : String → Option (ℚ × ℚ) :=
  fun c => if c == "Mumbai" then some (19, 73) else if c == "Delhi" then some (29, 77) else none

/-- A route service that always raises. -/
def routeFail : (ℚ × ℚ) → (ℚ × ℚ) → Except String (ℚ × ℚ) :=
  fun _ _ => .error "timeout"

/-! ### List-update observation lemmas -/

theorem find?_updateFirst (p : α → Bool) (f : α → α) (hf : ∀ a, p (f a) = p a) :
    ∀ l : List α, (updateFirst p f l).find? p = (l.find? p).map f := by
  intro l
  induction l with
  | nil => rfl
  | cons x xs ih =>
    simp only [updateFirst]
    by_cases hx : p x = true
    · rw [if_pos hx, List.find?_cons_of_pos _ (by rw [hf x]; exact hx),
        List.find?_cons_of_pos _ hx]
      rfl
    · rw [if_neg hx, List.find?_cons_of_neg _ (by simpa using hx),
        List.find?_cons_of_neg _ (by simpa using hx)]
      exact ih

theorem apply_trip_status_id (st : String) (loc : Option String) (n : String) (t : Trip) :
    (apply_trip_status st loc n t).id = t.id := by
  unfold apply_trip_status
  split <;> rfl

theorem apply_trip_status_status (st : String) (loc : Option String) (n : String) (t : Trip) :
    (apply_trip_status st loc n t).status = some st := by
  unfold apply_trip_status
  split <;> rfl

theorem apply_trip_status_progress (st : String) (loc : Option String) (n : String) (t : Trip) :
    (apply_trip_status st loc n t).progress_percent = t.progress_percent := by
  unfold apply_trip_status
  split <;> rfl

theorem find?_update_trip_status (trips : List Trip) (tid st : String)
    (loc : Option String) (n : String) :
    (update_trip_status trips tid st loc n).find? (fun t => t.id == tid) =
      (trips.find? (fun t => t.id == tid)).map (apply_trip_status st loc n) := by
  unfold update_trip_status
  exact find?_updateFirst _ _ (fun a => by rw [apply_trip_status_id]) trips

theorem status_after_update_trip_location (s : AgentState) (tid loc nIso : String) (t : Trip)
    (h : get_trip_by_id s tid = some t) :
    trip_status_in (update_trip_location s tid loc nIso).2 tid = some "in_progress" := by
  have h2 : List.find? (fun t => t.id == tid) s.trips = some t := h
  simp only [update_trip_location, get_trip_by_id, h2, trip_status_in]
  rw [find?_updateFirst (fun t : Trip => t.id == tid) (apply_trip_tracking loc nIso _) (fun a => rfl),
    find?_update_trip_status, h2]
  simp [apply_trip_status_status, apply_trip_tracking]

theorem status_after_start_trip (s : AgentState) (tid loc nIso : String) (t : Trip)
    (h : get_trip_by_id s tid = some t) :
    trip_status_in (start_trip s tid loc nIso).2 tid = some "in_progress" := by
  have h2 : List.find? (fun t => t.id == tid) s.trips = some t := h
  simp only [start_trip, get_trip_by_id, h2, trip_status_in]
  split
  · rw [find?_update_trip_status, h2]
    simp [apply_trip_status_status]
  · rw [find?_update_trip_status, h2]
    simp [apply_trip_status_status]

theorem status_after_accept_trip (s : AgentState) (tid phone nIso : String) (t : Trip)
    (h : get_trip_by_id s tid = some t) :
    trip_status_in (accept_trip s tid phone nIso).2 tid = t.status ∨
    trip_status_in (accept_trip s tid phone nIso).2 tid = some "accepted" := by
  have h2 : List.find? (fun t => t.id == tid) s.trips = some t := h
  simp only [accept_trip, get_trip_by_id, h2]
  by_cases hauth : (t.driver_phone == some phone) = true
  · right
    rw [if_neg (by simp [hauth])]
    simp only [trip_status_in, get_trip_by_id]
    split
    · rw [find?_update_trip_status, h2]
      simp [apply_trip_status_status]
    · rw [find?_update_trip_status, h2]
      simp [apply_trip_status_status]
  · left
    rw [if_pos (by simpa using hauth)]
    simp [trip_status_in, get_trip_by_id, h2]

theorem status_after_complete_trip (s : AgentState) (tid loc nIso : String) (t : Trip)
    (h : get_trip_by_id s tid = some t) :
    trip_status_in (complete_trip s tid loc nIso).2 tid = some "completed" := by
  have h2 : List.find? (fun t => t.id == tid) s.trips = some t := h
  simp only [complete_trip, get_trip_by_id, h2, trip_status_in]
  rw [find?_updateFirst (fun t : Trip => t.id == tid) (apply_trip_completion _ nIso) (fun a => rfl)]
  split
  · rw [find?_update_trip_status, h2]
    simp [apply_trip_status_status, apply_trip_completion]
  · rw [find?_update_trip_status, h2]
    simp [apply_trip_status_status, apply_trip_completion]

theorem progress_after_update_trip_location (s : AgentState) (tid loc nIso : String) (t : Trip)
    (h : get_trip_by_id s tid = some t) :
    trip_progress_in (update_trip_location s tid loc nIso).2 tid =
      some (if t.progress_percent.getD 0 < 100 then min (t.progress_percent.getD 0 + 10) 95
            else t.progress_percent.getD 0) := by
  have h2 : List.find? (fun t => t.id == tid) s.trips = some t := h
  simp only [update_trip_location, get_trip_by_id, h2, trip_progress_in]
  rw [find?_updateFirst (fun t : Trip => t.id == tid) (apply_trip_tracking loc nIso _) (fun a => rfl),
    find?_update_trip_status, h2]
  simp [apply_trip_tracking]

theorem progress_after_accept_trip (s : AgentState) (tid phone nIso : String) (t : Trip)
    (h : get_trip_by_id s tid = some t) :
    trip_progress_in (accept_trip s tid phone nIso).2 tid = t.progress_percent := by
  have h2 : List.find? (fun t => t.id == tid) s.trips = some t := h
  simp only [accept_trip, get_trip_by_id, h2]
  by_cases hauth : (t.driver_phone == some phone) = true
  · rw [if_neg (by simp [hauth])]
    simp only [trip_progress_in, get_trip_by_id]
    split
    · rw [find?_update_trip_status, h2]
      simp [apply_trip_status_progress]
    · rw [find?_update_trip_status, h2]
      simp [apply_trip_status_progress]
  · rw [if_pos (by simpa using hauth)]
    simp [trip_progress_in, get_trip_by_id, h2]

theorem progress_after_start_trip (s : AgentState) (tid loc nIso : String) (t : Trip)
    (h : get_trip_by_id s tid = some t) :
    trip_progress_in (start_trip s tid loc nIso).2 tid = t.progress_percent := by
  have h2 : List.find? (fun t => t.id == tid) s.trips = some t := h
  simp only [start_trip, get_trip_by_id, h2, trip_progress_in]
  split
  · rw [find?_update_trip_status, h2]
    simp [apply_trip_status_progress]
  · rw [find?_update_trip_status, h2]
    simp [apply_trip_status_progress]

theorem progress_after_complete_trip (s : AgentState) (tid loc nIso : String) (t : Trip)
    (h : get_trip_by_id s tid = some t) :
    trip_progress_in (complete_trip s tid loc nIso).2 tid = some 100 := by
  have h2 : List.find? (fun t => t.id == tid) s.trips = some t := h
  simp only [complete_trip, get_trip_by_id, h2, trip_progress_in]
  rw [find?_updateFirst (fun t : Trip => t.id == tid) (apply_trip_completion _ nIso) (fun a => rfl)]
  split
  · rw [find?_update_trip_status, h2]
    simp [apply_trip_completion]
  · rw [find?_update_trip_status, h2]
    simp [apply_trip_completion]

/-! ### Claim theorems -/

/-- C3, counterexample: in the spec's two-vehicle scenario (origin "Mumbai",
distance 150 km) the quality scores computed by `calculate_truck_score` are
0.691 for A and 0.352 for B, not the claimed 0.747 and 0.414: at 150 km the
mileage term uses factor 0.1 (distance ≤ 500), not the 0.2 the claim's
arithmetic assumed. -/
theorem C3_counterexample :
    calculate_truck_score truckA "Mumbai" "Delhi" 150 = 691/1000 ∧
    calculate_truck_score truckB "Mumbai" "Delhi" 150 = 44/125 ∧
    (691/1000 : ℚ) ≠ 747/1000 ∧ (44/125 : ℚ) ≠ 414/1000 := by decide

/-- C3, amended: with vehicles A and B available, origin "Mumbai",
distance 150 km and no prior fairness token, selection returns vehicle A;
A's quality score is 0.4 + 0.15 + 0.085 + 0.056 = 0.691 and B's is
0 + 0.2 + 0.09 + 0.062 = 0.352 (= 44/125), for any destination and clock. -/
theorem C3_amended : ∀ (destination : String) (now : ℚ),
    (select_best_truck stateC3 "Mumbai" destination 150 now).1 = some truckA ∧
    calculate_truck_score truckA "Mumbai" destination 150 = 691/1000 ∧
    calculate_truck_score truckB "Mumbai" destination 150 = 44/125 :=
  fun _ _ => ⟨rfl, rfl, rfl⟩

/-- Witness for C3's amended claim at destination "Delhi" and clock 0. -/
theorem C3_amended_witness :
    (select_best_truck stateC3 "Mumbai" "Delhi" 150 0).1 = some truckA ∧
    calculate_truck_score truckA "Mumbai" "Delhi" 150 = 691/1000 ∧
    calculate_truck_score truckB "Mumbai" "Delhi" 150 = 44/125 :=
  C3_amended "Delhi" 0

/-- C7: with 2000 kg of remaining trip capacity and pending loads of
500, 2500, 800 and 1900 kg, `find_enroute_opportunities` returns exactly the
500, 800 and 1900 kg loads in listing order, each with
additional_revenue = weight × 0.5, and leaves the state untouched. -/
theorem C7_theorem :
    find_enroute_opportunities stateC7 "TRK001" =
      ([{ load_id := some "LOAD001", weight_kg := 500, pickup := some "Mumbai",
          dropoff := some "Pune", additional_revenue := 250,
          detour_estimated := "1-2 hours", profit_impact := "+₹250" },
        { load_id := some "LOAD003", weight_kg := 800, pickup := some "Mumbai",
          dropoff := some "Pune", additional_revenue := 400,
          detour_estimated := "1-2 hours", profit_impact := "+₹400" },
        { load_id := some "LOAD004", weight_kg := 1900, pickup := some "Mumbai",
          dropoff := some "Pune", additional_revenue := 950,
          detour_estimated := "1-2 hours", profit_impact := "+₹950" }],
       stateC7) := by decide

/-- C10: the matcher checks each pending load against the trip's
available_capacity_kg independently; with capacity 2000 and three pending
1900 kg loads it returns all three, whose summed weight 5700 exceeds the
2000 kg of remaining capacity, and it writes nothing. -/
theorem C10_theorem :
    ((find_enroute_opportunities stateC10 "TRK001").1.map Opportunity.weight_kg) =
      [1900, 1900, 1900] ∧
    ((find_enroute_opportunities stateC10 "TRK001").1.map Opportunity.weight_kg).sum = 5700 ∧
    ((get_trip_by_id stateC10 "TRIP001").bind Trip.available_capacity_kg) = some 2000 ∧
    (2000 : ℚ) < 5700 ∧
    (find_enroute_opportunities stateC10 "TRK001").2 = stateC10 := by decide

/-- C2, counterexample: with fairness token "+912", rotation must pick
`truckX` (score 0.1 < 0.5), so selection falls back to scoring, which returns
`truckY`; yet the fairness token afterwards is `truckX`'s phone "+911", not
the phone "+912" of the vehicle the fallback returned. -/
theorem C2_counterexample :
    (rotate_driver_selection stateC2 (get_available_trucks stateC2 "Delhi")).1 = some truckX ∧
    calculate_truck_score truckX "Delhi" "Mumbai" 150 < 1/2 ∧
    (select_best_truck stateC2 "Delhi" "Mumbai" 150 0).1 = some truckY ∧
    (select_best_truck stateC2 "Delhi" "Mumbai" 150 0).2.last_assigned_driver = some "+911" ∧
    truckY.driver_phone = some "+912" ∧
    (some "+911" : Option String) ≠ some "+912" := by decide

/-- C5: if the route computation raises, `plan_trip_with_truck` returns the
"Route calculation failed" failure and the state — trips, trucks and the
fairness token — is exactly the input state. -/
theorem C5_theorem :
    ∀ (geocode : String → Option (ℚ × ℚ))
      (route : (ℚ × ℚ) → (ℚ × ℚ) → Except String (ℚ × ℚ))
      (now : ℚ) (nowIso : String) (s : AgentState)
      (origin destination : String) (waypoints : List String)
      (sc ec : ℚ × ℚ) (e : String),
      geocode origin = some sc → geocode destination = some ec →
      route sc ec = Except.error e →
      plan_trip_with_truck geocode route now nowIso s origin destination waypoints =
        ((none, some ("Route calculation failed: " ++ e)), s) := by
  intro g r now nIso s o d w sc ec e hg hd hr
  simp only [plan_trip_with_truck, hg, hd, hr]

set_option maxHeartbeats 1000000 in
/-- C8: the quality score is monotone in the fuel level: raising
`fuel_percent` with all other truck fields, the origin, the destination and
the distance fixed never lowers `calculate_truck_score`. -/
theorem C8_theorem :
    ∀ (truck : Truck) (origin destination : String) (distance_km f1 f2 : ℚ),
      f1 ≤ f2 →
      calculate_truck_score { truck with fuel_percent := some f1 } origin destination distance_km ≤
        calculate_truck_score { truck with fuel_percent := some f2 } origin destination distance_km := by
  intro t o d dist f1 f2 h
  have hf : f1 / 100 * 0.1 ≤ f2 / 100 * 0.1 := by linarith
  simp only [calculate_truck_score, Option.getD_some]
  split_ifs <;> exact min_le_min le_rfl (by linarith)

/-- Witness for C8: raising vehicle A's fuel from 10 to 20 percent. -/
theorem C8_witness :
    (10 : ℚ) ≤ 20 ∧
    calculate_truck_score { truckA with fuel_percent := some 10 } "Mumbai" "Delhi" 150 ≤
      calculate_truck_score { truckA with fuel_percent := some 20 } "Mumbai" "Delhi" 150 :=
  ⟨by norm_num, C8_theorem truckA "Mumbai" "Delhi" 150 10 20 (by norm_num)⟩

/-- In the non-empty case the rotation phase always picks some candidate and
sets the fairness token to that candidate's driver phone. -/
theorem rotate_driver_selection_picks (s : AgentState) (a : Truck) (as : List Truck) :
    ∃ cand, (rotate_driver_selection s (a :: as)).1 = some cand ∧
      (rotate_driver_selection s (a :: as)).2.2 = cand.driver_phone := by
  simp only [rotate_driver_selection]
  split
  · exact ⟨_, rfl, rfl⟩
  · exact ⟨_, rfl, rfl⟩

/-- C9: after any `select_best_truck` call on a non-empty available list the
fairness token equals the rotation candidate's driver phone — whichever
branch produced the returned vehicle; the scoring fallback never writes it. -/
theorem C9_theorem :
    ∀ (s : AgentState) (origin destination : String) (distance_km now : ℚ),
      get_available_trucks s origin ≠ [] →
      (select_best_truck s origin destination distance_km now).2.last_assigned_driver =
          (rotate_driver_selection s (get_available_trucks s origin)).2.2 ∧
      ∃ cand, (rotate_driver_selection s (get_available_trucks s origin)).1 = some cand ∧
        (rotate_driver_selection s (get_available_trucks s origin)).2.2 = cand.driver_phone := by
  intro s o d dist now hne
  obtain ⟨a, as, h⟩ := List.exists_cons_of_ne_nil hne
  rw [h]
  constructor
  · simp only [select_best_truck, h]
    split
    · split_ifs <;> rfl
    · rfl
  · exact rotate_driver_selection_picks s a as

/-- Witness for C9 at the two-truck scenario state. -/
theorem C9_witness :
    get_available_trucks stateC3 "Mumbai" ≠ [] ∧
    ((select_best_truck stateC3 "Mumbai" "Delhi" 150 0).2.last_assigned_driver =
        (rotate_driver_selection stateC3 (get_available_trucks stateC3 "Mumbai")).2.2 ∧
      ∃ cand,
        (rotate_driver_selection stateC3 (get_available_trucks stateC3 "Mumbai")).1 = some cand ∧
        (rotate_driver_selection stateC3 (get_available_trucks stateC3 "Mumbai")).2.2 =
          cand.driver_phone) :=
  ⟨by decide, C9_theorem stateC3 "Mumbai" "Delhi" 150 0 (by decide)⟩

/-- C2, amended: when the quality gate rejects the rotation candidate and
selection falls back to the scoring phase, the returned vehicle is the
scoring phase's winner but the fairness token keeps the value the rotation
phase wrote — the rotation candidate's driver phone, not the winner's. -/
theorem C2_amended :
    ∀ (s : AgentState) (origin destination : String) (distance_km now : ℚ)
      (a : Truck) (as : List Truck) (cand : Truck),
      get_available_trucks s origin = a :: as →
      (rotate_driver_selection s (a :: as)).1 = some cand →
      calculate_truck_score cand origin destination distance_km < 0.5 →
      (select_best_truck s origin destination distance_km now).1 =
        select_best_truck_by_scoring
          { s with last_assigned_driver := (rotate_driver_selection s (a :: as)).2.2 }
          (rotate_driver_selection s (a :: as)).2.1 origin destination distance_km now ∧
      (select_best_truck s origin destination distance_km now).2.last_assigned_driver =
        cand.driver_phone := by
  intro s o d dist now a as cand h hc hlt
  obtain ⟨c2, hc1, hc2⟩ := rotate_driver_selection_picks s a as
  rw [hc1] at hc
  injection hc with hcc
  subst hcc
  constructor
  · simp only [select_best_truck, h, hc1]
    rw [if_neg (not_le.mpr hlt)]
  · simp only [select_best_truck, h, hc1]
    rw [if_neg (not_le.mpr hlt)]
    exact hc2

/-- Witness for C2's amended claim at the gate-rejection scenario state. -/
theorem C2_amended_witness :
    get_available_trucks stateC2 "Delhi" = [truckY, truckX] ∧
    (rotate_driver_selection stateC2 [truckY, truckX]).1 = some truckX ∧
    calculate_truck_score truckX "Delhi" "Mumbai" 150 < 0.5 ∧
    ((select_best_truck stateC2 "Delhi" "Mumbai" 150 0).1 =
        select_best_truck_by_scoring
          { stateC2 with
            last_assigned_driver := (rotate_driver_selection stateC2 [truckY, truckX]).2.2 }
          (rotate_driver_selection stateC2 [truckY, truckX]).2.1 "Delhi" "Mumbai" 150 0 ∧
      (select_best_truck stateC2 "Delhi" "Mumbai" 150 0).2.last_assigned_driver =
        truckX.driver_phone) :=
  ⟨by decide, by decide, by decide,
    C2_amended stateC2 "Delhi" "Mumbai" 150 0 truckY [truckX] truckX (by decide) (by decide)
      (by decide)⟩

/-- Witness for C5 at a concrete geocoder, failing route service and state. -/
theorem C5_witness :
    geoFix "Mumbai" = some (19, 73) ∧ geoFix "Delhi" = some (29, 77) ∧
    routeFail (19, 73) (29, 77) = Except.error "timeout" ∧
    plan_trip_with_truck geoFix routeFail 0 "ts" stateC3 "Mumbai" "Delhi" [] =
      ((none, some "Route calculation failed: timeout"), stateC3) :=
  ⟨rfl, rfl, rfl,
    C5_theorem geoFix routeFail 0 "ts" stateC3 "Mumbai" "Delhi" [] (19, 73) (29, 77)
      "timeout" rfl rfl rfl⟩

/-- C1, amended: each lifecycle operation drives the trip to its fixed target
status; whenever an operation is invoked with the trip at or before the
operation's target in the chain, the status index does not decrease. -/
theorem C1_amended :
    ∀ (s : AgentState) (trip_id driver_phone location nowIso : String) (t : Trip),
      get_trip_by_id s trip_id = some t →
      ((statusIdxO t.status ≤ statusIdx "accepted" →
          statusIdxO t.status ≤
            statusIdxO (trip_status_in (accept_trip s trip_id driver_phone nowIso).2 trip_id)) ∧
       (statusIdxO t.status ≤ statusIdx "in_progress" →
          statusIdxO t.status ≤
            statusIdxO (trip_status_in (start_trip s trip_id location nowIso).2 trip_id)) ∧
       (statusIdxO t.status ≤ statusIdx "in_progress" →
          statusIdxO t.status ≤
            statusIdxO (trip_status_in (update_trip_location s trip_id location nowIso).2 trip_id)) ∧
       (statusIdxO t.status ≤ statusIdx "completed" →
          statusIdxO t.status ≤
            statusIdxO (trip_status_in (complete_trip s trip_id location nowIso).2 trip_id))) := by
  intro s tid phone loc nIso t h
  refine ⟨?_, ?_, ?_, ?_⟩
  · intro hle
    rcases status_after_accept_trip s tid phone nIso t h with heq | heq <;> rw [heq]
    exact hle
  · intro hle
    rw [status_after_start_trip s tid loc nIso t h]
    exact hle
  · intro hle
    rw [status_after_update_trip_location s tid loc nIso t h]
    exact hle
  · intro hle
    rw [status_after_complete_trip s tid loc nIso t h]
    exact hle

/-- C4: `update_trip_location` computes exactly min(p+10, 95) from a prior
p < 100 (never exceeding 95) and leaves p unchanged otherwise, so it reaches
100 only if the progress already was 100; `accept_trip` and `start_trip` do
not touch the progress; `complete_trip` sets it to exactly 100. -/
theorem C4_theorem :
    ∀ (s : AgentState) (trip_id driver_phone location nowIso : String) (t : Trip),
      get_trip_by_id s trip_id = some t →
      (trip_progress_in (update_trip_location s trip_id location nowIso).2 trip_id =
          some (if t.progress_percent.getD 0 < 100 then min (t.progress_percent.getD 0 + 10) 95
                else t.progress_percent.getD 0)) ∧
      (t.progress_percent.getD 0 < 100 →
        trip_progress_in (update_trip_location s trip_id location nowIso).2 trip_id =
            some (min (t.progress_percent.getD 0 + 10) 95) ∧
          min (t.progress_percent.getD 0 + 10) 95 ≤ 95) ∧
      (trip_progress_in (update_trip_location s trip_id location nowIso).2 trip_id = some 100 →
        t.progress_percent.getD 0 = 100) ∧
      (trip_progress_in (accept_trip s trip_id driver_phone nowIso).2 trip_id =
        t.progress_percent) ∧
      (trip_progress_in (start_trip s trip_id location nowIso).2 trip_id =
        t.progress_percent) ∧
      (trip_progress_in (complete_trip s trip_id location nowIso).2 trip_id = some 100) := by
  intro s tid phone loc nIso t h
  refine ⟨progress_after_update_trip_location s tid loc nIso t h, ?_, ?_,
    progress_after_accept_trip s tid phone nIso t h,
    progress_after_start_trip s tid loc nIso t h,
    progress_after_complete_trip s tid loc nIso t h⟩
  · intro hp
    refine ⟨?_, min_le_right _ _⟩
    rw [progress_after_update_trip_location s tid loc nIso t h, if_pos hp]
  · intro h100
    rw [progress_after_update_trip_location s tid loc nIso t h] at h100
    by_cases hp : t.progress_percent.getD 0 < 100
    · rw [if_pos hp] at h100
      have : min (t.progress_percent.getD 0 + 10) 95 = 100 := Option.some.inj h100
      omega
    · rw [if_neg hp] at h100
      exact Option.some.inj h100

/-- C1, counterexample: on a trip whose status is `completed`,
`update_trip_location` rewrites the status to `in_progress` and `accept_trip`
rewrites it to `accepted` — both strictly backward in the lifecycle chain — so
the lifecycle is not forward-only over every operation sequence. -/
theorem C1_counterexample :
    trip_status_in stateDone "TRIP001" = some "completed" ∧
    trip_status_in (update_trip_location stateDone "TRIP001" "Pune" "ts").2 "TRIP001" =
      some "in_progress" ∧
    statusIdx "in_progress" < statusIdx "completed" ∧
    trip_status_in (accept_trip stateDone "TRIP001" "+911" "ts").2 "TRIP001" =
      some "accepted" ∧
    statusIdx "accepted" < statusIdx "completed" := by decide

/-- Witness for C1's amended claim: accepting a pending trip moves the status
forward. -/
theorem C1_amended_witness :
    get_trip_by_id statePending "TRIP001" = some tripPending ∧
    statusIdxO tripPending.status ≤ statusIdx "accepted" ∧
    statusIdxO tripPending.status ≤
      statusIdxO (trip_status_in (accept_trip statePending "TRIP001" "+911" "ts").2 "TRIP001") :=
  ⟨by decide, by decide,
    (C1_amended statePending "TRIP001" "+911" "Pune" "ts" tripPending (by decide)).1 (by decide)⟩

/-- Witness for C4 at an in-progress trip with progress 90: the update yields
min(100, 95) = 95 and completion yields exactly 100. -/
theorem C4_witness :
    get_trip_by_id stateRolling "TRIP001" = some tripRolling ∧
    tripRolling.progress_percent.getD 0 < 100 ∧
    (trip_progress_in (update_trip_location stateRolling "TRIP001" "Pune" "ts").2 "TRIP001" =
        some (min (tripRolling.progress_percent.getD 0 + 10) 95) ∧
      min (tripRolling.progress_percent.getD 0 + 10) 95 ≤ 95) ∧
    trip_progress_in (complete_trip stateRolling "TRIP001" "Pune" "ts").2 "TRIP001" = some 100 :=
  ⟨by decide, by decide,
    (C4_theorem stateRolling "TRIP001" "+911" "Pune" "ts" tripRolling (by decide)).2.1 (by decide),
    (C4_theorem stateRolling "TRIP001" "+911" "Pune" "ts" tripRolling (by decide)).2.2.2.2.2⟩


/-- The stop count `plan_fuel_stops` derives: max(1, int(distance / (range × 0.6)))
with range = 400 × mileage. -/
def num_fuel_stops (distance_km mileage_kmpl : ℚ) : ℤ :=
  max 1 (pyInt (distance_km / (400 * mileage_kmpl * 0.6)))

/-- The per-stop fuel formula exactly as the claim words it, read with true
division: max(20, 100 − i·(80/(num_stops+1))). Stated from the claim for
comparison with the code's floor-division computation. -/
def specFuelFormula (i num_stops : ℕ) : ℚ :=
  max 20 (100 - (i : ℚ) * (80 / ((num_stops : ℚ) + 1)))

/-- C6, counterexample: for (mumbai, delhi), distance 2500 and mileage 5 the
code derives num_stops = 2 and emits first-stop fuel 74 percent — the value of
max(20, 100 − 1·(80 // 3)) with floor division — whereas the claim's formula
with true division demands 100 − 80/3 = 220/3 ≈ 73.33, which 74 is not. -/
theorem C6_counterexample :
    num_fuel_stops 2500 5 = 2 ∧
    (plan_fuel_stops "Mumbai" "Delhi" 2500 5).map FuelStop.estimated_fuel = ["74%", "48%"] ∧
    max 20 (100 - 1 * ((80 : ℤ) / (2 + 1))) = 74 ∧
    specFuelFormula 1 2 = 220/3 ∧ ((74 : ℚ) ≠ specFuelFormula 1 2) := by decide

/-- C6, amended: for every pair resolved by the route-city table with
distance over 300 km and enough known cities, the i-th stop (1-based) sits at
city index min(i·step, len−1) with step = len // (num_stops+1), and its
estimated fuel is max(20, 100 − i·(80 // (num_stops+1))) percent — the claim's
formula with floor (integer) division in place of true division. -/
theorem C6_amended :
    ∀ (origin destination : String) (cities : List String) (distance_km mileage_kmpl : ℚ)
      (i : ℕ),
      ((lookupRoute (strLower origin, strLower destination)).orElse
          (fun _ => lookupRoute (strLower destination, strLower origin))).getD [] = cities →
      300 < distance_km →
      num_fuel_stops distance_km mileage_kmpl ≤ (cities.length : ℤ) →
      1 ≤ i → (i : ℤ) ≤ num_fuel_stops distance_km mileage_kmpl →
      (plan_fuel_stops origin destination distance_km mileage_kmpl).get? (i - 1) =
        some { city := cities.getD
                 (min (i * (cities.length / ((num_fuel_stops distance_km mileage_kmpl).toNat + 1)))
                   (cities.length - 1)) "",
               estimated_fuel := toString (max 20 (100 - (i : ℤ) *
                 ((80 : ℤ) / (((num_fuel_stops distance_km mileage_kmpl).toNat : ℤ) + 1)))) ++ "%",
               reason := "Refuel before reaching " ++ destination } := by
  intro o d cs dist m i hcs hdist hle h1 hi
  have hns1 : (1 : ℤ) ≤ num_fuel_stops dist m := le_max_left _ _
  have hne : cs ≠ [] := by
    intro hnil
    rw [hnil] at hle
    simp only [List.length_nil, Nat.cast_zero] at hle
    omega
  have hiub : i - 1 < (num_fuel_stops dist m).toNat := by omega
  simp only [plan_fuel_stops, num_fuel_stops] at *
  rw [hcs, if_pos (show cs ≠ [] ∧ 300 < dist from ⟨hne, hdist⟩), if_pos hle]
  have hmapne :
      ((List.range (max 1 (pyInt (dist / (400 * m * 0.6)))).toNat).map (fun j =>
        ({ city := cs.getD
             (min ((j + 1) * (cs.length / ((max 1 (pyInt (dist / (400 * m * 0.6)))).toNat + 1)))
               (cs.length - 1)) "",
           estimated_fuel := toString (max 20 (100 - ((j + 1 : ℕ) : ℤ) *
             ((80 : ℤ) / (((max 1 (pyInt (dist / (400 * m * 0.6)))).toNat : ℤ) + 1)))) ++ "%",
           reason := "Refuel before reaching " ++ d } : FuelStop))) ≠ [] := by
    simp only [ne_eq, List.map_eq_nil_iff, List.range_eq_nil]
    omega
  rw [if_pos hmapne, List.get?_map, List.get?_range hiub]
  have hcast : ((i - 1 : ℕ) : ℤ) + 1 = (i : ℤ) := by omega
  simp [Nat.sub_add_cancel h1, hcast]

/-- Witness for C6's amended claim: (mumbai, delhi), distance 2500, mileage 5,
first stop = Vadodara at 74 percent. -/
theorem C6_amended_witness :
    ((lookupRoute (strLower "Mumbai", strLower "Delhi")).orElse
        (fun _ => lookupRoute (strLower "Delhi", strLower "Mumbai"))).getD [] =
      ["Surat", "Vadodara", "Udaipur", "Jaipur"] ∧
    (300 : ℚ) < 2500 ∧
    num_fuel_stops 2500 5 ≤ ((["Surat", "Vadodara", "Udaipur", "Jaipur"] : List String).length : ℤ) ∧
    (1 : ℤ) ≤ num_fuel_stops 2500 5 ∧
    (plan_fuel_stops "Mumbai" "Delhi" 2500 5).get? 0 =
      some { city := "Vadodara", estimated_fuel := "74%",
             reason := "Refuel before reaching Delhi" } :=
  ⟨by decide, by decide, by decide, by decide,
    C6_amended "Mumbai" "Delhi" ["Surat", "Vadodara", "Udaipur", "Jaipur"] 2500 5 1
      (by decide) (by decide) (by decide) (by decide) (by decide)⟩

end InnoCrew
